import Mathlib

/-!
Verification of the SQL safety layer of the TextToSQL repository
(`src/query/executor.py`): the query validator (`QueryValidator`), the safe
executor (`SafeQueryExecutor.execute_query`) and the result formatter
(`SafeQueryExecutor.format_result`), shallowly embedded as pure Lean
functions.  Strings are lists of characters; the external relational backend
is an explicit parameter describing what the backend would answer for a
given query text; wall-clock time is an explicit nonnegative rational
parameter.
-/

deriving instance DecidableEq for Except

namespace TextToSQL

/-- Query texts and message strings are modelled as lists of characters. -/
abbrev Str := List Char

/-- The characters stripped by Python `str.strip()` (ASCII whitespace). -/
def isSpaceCh (c : Char) : Bool :=
  c == ' ' || c == '\t' || c == '\n' || c == '\r' || c == Char.ofNat 11 || c == Char.ofNat 12

/-- Embedding of Python `str.strip()`: drop whitespace at both ends. -/
def pyStrip (s : Str) : Str :=
  List.reverse (List.dropWhile isSpaceCh (List.reverse (List.dropWhile isSpaceCh s)))

/-- Embedding of Python `str.lower()` (ASCII case folding). -/
def lowerStr (s : Str) : Str := s.map Char.toLower

/-- Embedding of Python `str.startswith`: does the second list start with the first? -/
def strStartsWith : Str → Str → Bool
  | [], _ => true
  | _ :: _, [] => false
  | p :: ps, c :: cs => if p = c then strStartsWith ps cs else false

/-- Embedding of Python substring containment (`pat in s`). -/
def containsSub (pat : Str) (s : Str) : Bool :=
  strStartsWith pat s ||
    match s with
    | [] => false
    | _ :: rest => containsSub pat rest

/-- A regex word character as used by the word-boundary in the validator
patterns (letters, digits, underscore). -/
def isWordChar (c : Char) : Bool := c.isAlphanum || c == '_'

/-- A word boundary holds before the match when the preceding character is
absent or is not a word character. -/
def okBoundary : Option Char → Bool
  | none => true
  | some c => !(isWordChar c)

/-- A word boundary holds after the match when the remaining text is empty
or begins with a non-word character. -/
def okAfter : Str → Bool
  | [] => true
  | c :: _ => !(isWordChar c)

/-- Scan for a word-bounded occurrence of `kw`, carrying the character just
before the current position. -/
def hasWordOccAux (kw : Str) : Option Char → Str → Bool
  | prev, [] => strStartsWith kw [] && okBoundary prev
  | prev, c :: rest =>
      (strStartsWith kw (c :: rest) && okBoundary prev
        && okAfter (List.drop kw.length (c :: rest)))
      || hasWordOccAux kw (some c) rest

/-- Embedding of `re.search` with the word-bounded keyword patterns used in
`check_forbidden_keywords` (the keywords consist of word characters only, so
the boundary reduces to the neighbouring characters being absent or
non-word). -/
def hasWordOcc (kw : Str) (s : Str) : Bool := hasWordOccAux kw none s

/-- Count word-bounded occurrences, carrying the previous character. -/
def countWordOccAux (kw : Str) : Option Char → Str → Nat
  | _, [] => 0
  | prev, c :: rest =>
      (if strStartsWith kw (c :: rest) && okBoundary prev
          && okAfter (List.drop kw.length (c :: rest)) then 1 else 0)
      + countWordOccAux kw (some c) rest

/-- Embedding of `len(re.findall(word-bounded pattern, s))` as used for the
JOIN count.  A word-bounded occurrence is followed by a non-word character,
so for the keyword `join` occurrences cannot overlap and counting start
positions agrees with `re.findall`. -/
def countWordOcc (kw : Str) (s : Str) : Nat := countWordOccAux kw none s

/-- Embedding of Python `str.count` (non-overlapping scan from the left):
after a match the scan resumes past the matched text, tracked by a skip
counter. -/
def pyCountAux (pat : Str) : Str → Nat → Nat
  | [], _ => 0
  | c :: rest, skip =>
    match skip with
    | n + 1 => pyCountAux pat rest n
    | 0 =>
      if strStartsWith pat (c :: rest) then 1 + pyCountAux pat rest (pat.length - 1)
      else pyCountAux pat rest 0

/-- Embedding of Python `s.count(pat)` for nonempty `pat`. -/
def pyCount (pat : Str) (s : Str) : Nat := pyCountAux pat s 0

/-- Decimal rendering of a natural number, as Python `str`. -/
def natStr (n : Nat) : Str := (toString n).data

/-- Decimal rendering of an integer, as Python `str`. -/
def intStr (i : Int) : Str := (toString i).data

/-- The single-quote character used in the validator error messages. -/
def quoteCh : Char := Char.ofNat 39

/-- The validator configuration (`QueryValidator.__init__` fields). -/
structure QueryValidator where
  max_joins : Int := 5
  max_length : Int := 2000
  max_subqueries : Int := 3
deriving DecidableEq

namespace QueryValidator

/-- `FORBIDDEN_KEYWORDS` from the source, in source order. -/
def FORBIDDEN_KEYWORDS : List Str :=
  ["drop".data, "truncate".data, "alter".data, "create".data, "insert".data,
   "update".data, "delete".data, "grant".data, "revoke".data, "exec".data,
   "execute".data, "call".data, "replace".data, "merge".data, "into".data,
   "values".data]

/-- `RESTRICTED_KEYWORDS` from the source, in source order. -/
def RESTRICTED_KEYWORDS : List Str :=
  ["union".data, "information_schema".data, "pg_".data, "mysql.".data,
   "sys.".data, "master.".data, "msdb.".data, "tempdb.".data,
   "performance_schema".data]

/-- The first list entry satisfying `p`, mirroring a `for` loop that raises
on the first hit. -/
def scanList (p : Str → Bool) : List Str → Option Str
  | [] => none
  | k :: ks => if p k then some k else scanList p ks

/-- Message of the forbidden-keyword rejection. -/
def forbiddenMsg (k : Str) : Str :=
  ("Forbidden keyword ".data ++ [quoteCh]) ++ k ++ ([quoteCh] ++ " detected".data)

/-- Message of the restricted-substring rejection. -/
def restrictedMsg (r : Str) : Str :=
  ("Access to ".data ++ [quoteCh]) ++ r ++ ([quoteCh] ++ " is not allowed".data)

/-- Embedding of `QueryValidator.validate_syntax`: rejection is returned as
`Except.error reason` in place of a raised `QuerySafetyError`. -/
def validate_syntax (query : Str) : Except Str Unit :=
  let query_clean := pyStrip query
  if query_clean.isEmpty then .error ("Empty query".data)
  else if !(strStartsWith ("select".data) (lowerStr query_clean)) then
    .error ("Only SELECT queries are allowed".data)
  else if List.count '(' query_clean ≠ List.count ')' query_clean then
    .error ("Unmatched parentheses in query".data)
  else .ok ()

/-- Embedding of `QueryValidator.check_forbidden_keywords`: word-bounded
scan over `FORBIDDEN_KEYWORDS`, then plain substring scan over
`RESTRICTED_KEYWORDS`. -/
def check_forbidden_keywords (query : Str) : Except Str Unit :=
  let query_lower := lowerStr query
  match scanList (fun k => hasWordOcc k query_lower) FORBIDDEN_KEYWORDS with
  | some k => .error (forbiddenMsg k)
  | none =>
    match scanList (fun r => containsSub r query_lower) RESTRICTED_KEYWORDS with
    | some r => .error (restrictedMsg r)
    | none => .ok ()

/-- Embedding of `QueryValidator.check_restricted_keywords`, which returns
an empty warning list in the source. -/
def check_restricted_keywords (_query : Str) : List Str := []

/-- Message of the subquery-limit rejection, with the counted value. -/
def tooManySubqueriesMsg (v : QueryValidator) (query : Str) : Str :=
  "Too many subqueries: ".data
    ++ intStr ((pyCount ("select".data) (lowerStr query) : Int) - 1)
    ++ " > ".data ++ intStr v.max_subqueries

/-- Embedding of `QueryValidator.check_complexity_limits`: length bound,
JOIN count, then the `count("select") - 1` subquery heuristic. -/
def check_complexity_limits (v : QueryValidator) (query : Str) : Except Str Unit :=
  let query_lower := lowerStr query
  if (query.length : Int) > v.max_length then
    .error ("Query too long: ".data ++ natStr query.length ++ " > ".data
      ++ intStr v.max_length ++ " characters".data)
  else if (countWordOcc ("join".data) query_lower : Int) > v.max_joins then
    .error ("Too many JOINs: ".data ++ natStr (countWordOcc ("join".data) query_lower)
      ++ " > ".data ++ intStr v.max_joins)
  else if (pyCount ("select".data) query_lower : Int) - 1 > v.max_subqueries then
    .error (tooManySubqueriesMsg v query)
  else .ok ()

/-- Embedding of `QueryValidator.validate_query`: the three checks in
source order; the first raised `QuerySafetyError` becomes the error, and on
acceptance the (always empty) warning list is returned. -/
def validate_query (v : QueryValidator) (query : Str) : Except Str (List Str) :=
  match validate_syntax query with
  | .error e => .error e
  | .ok _ =>
    match check_forbidden_keywords query with
    | .error e => .error e
    | .ok _ =>
      match check_complexity_limits v query with
      | .error e => .error e
      | .ok _ => .ok (check_restricted_keywords query)

end QueryValidator

/-- A materialized result row (`dict(row._mapping)` in the source); its
contents are opaque to the executor. -/
abbrev Row := List (Str × Str)

/-- What the external relational backend does with a submitted query text:
it either yields a stream of rows, reports a timeout (`TimeoutError`), a
database error (`SQLAlchemyError`), or some other unexpected failure. -/
inductive BackendResponse where
  | rows (rs : List Row)
  | timeout (msg : Str)
  | dbError (msg : Str)
  | failure (msg : Str)
deriving DecidableEq

/-- The `QueryResult` dataclass, with its field defaults (`__post_init__`
replaces an absent warning list by `[]`). -/
structure QueryResult where
  success : Bool
  data : Option (List Row) := none
  row_count : Nat := 0
  execution_time : ℚ := 0
  error : Option Str := none
  warnings : List Str := []
deriving DecidableEq

/-- The `SafeQueryExecutor` configuration (`__init__` fields). -/
structure SafeQueryExecutor where
  validator : QueryValidator := {}
  default_timeout : Int := 10
  max_rows : Nat := 1000
deriving DecidableEq

/-- The observable effect of one `execute_query` call: the returned
`QueryResult` together with whether a backend connection was opened
(`create_database_engine` / `engine.connect` reached). -/
structure ExecTrace where
  result : QueryResult
  connection_opened : Bool
deriving DecidableEq

namespace SafeQueryExecutor

/-- Embedding of `timeout = timeout or self.default_timeout`: Python `or`
takes the default when the override is absent or the falsy integer `0`. -/
def effective_timeout (timeout : Option Int) (dflt : Int) : Int :=
  match timeout with
  | none => dflt
  | some t => if t = 0 then dflt else t

/-- The truncation warning appended when the row cap is hit. -/
def trunc_warning (max_rows : Nat) : Str :=
  "Result truncated to ".data ++ natStr max_rows ++ " rows".data

/-- Embedding of the row-fetch loop of `execute_query`: accumulate rows and
the row count; on meeting a row once `row_count >= max_rows`, append the
truncation warning and stop. -/
def fetchLoop (max_rows : Nat) : List Row → List Row → Nat → List Str →
    List Row × Nat × List Str
  | [], rows, row_count, warnings => (rows, row_count, warnings)
  | r :: rest, rows, row_count, warnings =>
    if max_rows ≤ row_count then (rows, row_count, warnings ++ [trunc_warning max_rows])
    else fetchLoop max_rows rest (rows ++ [r]) (row_count + 1) warnings

/-- Embedding of `SafeQueryExecutor.execute_query`.  `backend` is the
external engine: what submitting a given query text would produce.
`elapsed` is the wall-clock time observed between entry and the exit point
(`time.time() - start_time`).  Each `except` arm of the source becomes a
branch on the backend response; a validation rejection never consults the
backend. -/
def execute_query (ex : SafeQueryExecutor) (backend : Str → BackendResponse)
    (query : Str) (timeout : Option Int) (elapsed : ℚ) : ExecTrace :=
  let t := effective_timeout timeout ex.default_timeout
  match ex.validator.validate_query query with
  | .error e =>
    { result := { success := false, execution_time := elapsed,
                  error := some ("Safety violation: ".data ++ e) },
      connection_opened := false }
  | .ok warnings =>
    match backend query with
    | .timeout _ =>
      { result := { success := false, execution_time := elapsed,
                    error := some ("Query timeout after ".data ++ intStr t
                      ++ " seconds".data) },
        connection_opened := true }
    | .dbError m =>
      { result := { success := false, execution_time := elapsed,
                    error := some ("Database error: ".data ++ m) },
        connection_opened := true }
    | .failure m =>
      { result := { success := false, execution_time := elapsed,
                    error := some ("Unexpected error: ".data ++ m) },
        connection_opened := true }
    | .rows rs =>
      let fr := fetchLoop ex.max_rows rs [] 0 warnings
      { result := { success := true, data := some fr.1, row_count := fr.2.1,
                    execution_time := elapsed, warnings := fr.2.2 },
        connection_opened := true }

end SafeQueryExecutor

/-- Round-half-to-even on rationals, the tie rule of Python `round`. -/
def roundHalfEven (x : ℚ) : Int :=
  let f := ⌊x⌋
  let r := x - (f : ℚ)
  if r < 1 / 2 then f
  else if 1 / 2 < r then f + 1
  else if f % 2 = 0 then f else f + 1

/-- Embedding of Python `round(x, 3)`. -/
def pyRound3 (x : ℚ) : ℚ := (roundHalfEven (x * 1000) : ℚ) / 1000

/-- A value of the response map built by `format_result`. -/
inductive Val where
  | vb (b : Bool)
  | vq (x : ℚ)
  | vn (n : Nat)
  | vdata (d : Option (List Row))
  | vwarn (w : List Str)
  | verr (e : Option Str)
deriving DecidableEq

namespace SafeQueryExecutor

/-- Embedding of `SafeQueryExecutor.format_result`: the response dictionary
as an ordered key/value list.  The base keys are always present; `data` (and
`warnings` when the list is nonempty) are added on success, `error` on
failure.  No field of the input is validated. -/
def format_result (r : QueryResult) : List (Str × Val) :=
  [("success".data, Val.vb r.success),
   ("execution_time".data, Val.vq (pyRound3 r.execution_time)),
   ("row_count".data, Val.vn r.row_count)]
  ++ (if r.success then
        ("data".data, Val.vdata r.data)
          :: (if r.warnings ≠ [] then [("warnings".data, Val.vwarn r.warnings)] else [])
      else [("error".data, Val.verr r.error)])

end SafeQueryExecutor

/-- State-passing form of a `validate_query` call: the outcome together
with the validator state after the call.  No method of the source assigns
to a `self` field, so the state after the call is the state before it. -/
def validateCall (v : QueryValidator) (query : Str) :
    Except Str (List Str) × QueryValidator :=
  (v.validate_query query, v)

/-! ## Helper lemmas -/

theorem strStartsWith_self_append (p s : Str) : strStartsWith p (p ++ s) = true := by
  induction p with
  | nil => rfl
  | cons c cs ih => simp [strStartsWith, ih]

theorem containsSub_middle (a p b : Str) : containsSub p (a ++ (p ++ b)) = true := by
  induction a with
  | nil =>
    rw [List.nil_append, containsSub.eq_def, strStartsWith_self_append]
    rfl
  | cons c cs ih =>
    rw [List.cons_append, containsSub.eq_def]
    simp [ih]

theorem scanList_of_mem {p : Str → Bool} :
    ∀ {l : List Str}, (∃ k ∈ l, p k = true) →
      ∃ k, QueryValidator.scanList p l = some k ∧ k ∈ l ∧ p k = true := by
  intro l
  induction l with
  | nil => rintro ⟨k, hk, _⟩; cases hk
  | cons a as ih =>
    rintro ⟨k, hk, hpk⟩
    by_cases ha : p a = true
    · exact ⟨a, by simp [QueryValidator.scanList, ha], List.mem_cons_self a as, ha⟩
    · have hk' : k ∈ as := by
        rcases List.mem_cons.mp hk with h | h
        · exact absurd (h ▸ hpk) ha
        · exact h
      rcases ih ⟨k, hk', hpk⟩ with ⟨k0, hscan, hmem, hpk0⟩
      exact ⟨k0, by simp [QueryValidator.scanList, ha, hscan], List.mem_cons_of_mem a hmem, hpk0⟩

theorem fetchLoop_spec (max_rows : Nat) :
    ∀ (stream acc : List Row) (n : Nat) (ws : List Str), n ≤ max_rows →
      SafeQueryExecutor.fetchLoop max_rows stream acc n ws =
        if stream.length + n ≤ max_rows then (acc ++ stream, n + stream.length, ws)
        else (acc ++ stream.take (max_rows - n), max_rows,
          ws ++ [SafeQueryExecutor.trunc_warning max_rows]) := by
  intro stream
  induction stream with
  | nil =>
    intro acc n ws hn
    simp [SafeQueryExecutor.fetchLoop, hn]
  | cons r rest ih =>
    intro acc n ws hn
    rw [SafeQueryExecutor.fetchLoop]
    by_cases hfull : max_rows ≤ n
    · have hn' : n = max_rows := Nat.le_antisymm hn hfull
      rw [if_pos hfull]
      have hc : ¬ ((r :: rest).length + n ≤ max_rows) := by
        simp [List.length_cons]
        omega
      rw [if_neg hc]
      subst hn'
      simp
    · rw [if_neg hfull]
      have hlt : n < max_rows := Nat.lt_of_not_ge hfull
      rw [ih (acc ++ [r]) (n + 1) ws hlt]
      by_cases hc : rest.length + (n + 1) ≤ max_rows
      · rw [if_pos hc]
        have hc' : (r :: rest).length + n ≤ max_rows := by
          simp [List.length_cons]; omega
        rw [if_pos hc']
        simp [List.length_cons]
        omega
      · rw [if_neg hc]
        have hc' : ¬ ((r :: rest).length + n ≤ max_rows) := by
          simp [List.length_cons] at hc ⊢
          omega
        rw [if_neg hc']
        have htake : max_rows - n = (max_rows - (n + 1)) + 1 := by omega
        rw [htake]
        simp [List.take_succ_cons]

/-! ## Claim theorems -/

/-- C1: whenever the validator rejects a query text (for any of its
rejection reasons), `execute_query` returns an outcome with `success =
false` whose error is `"Safety violation: "` followed by the rejection
reason, with the elapsed time recorded, and no backend connection is
opened. -/
theorem C1_reject_safety_violation_no_connection
    (ex : SafeQueryExecutor) (backend : Str → BackendResponse) (query : Str)
    (timeout : Option Int) (elapsed : ℚ) (reason : Str)
    (h : ex.validator.validate_query query = .error reason) :
    ex.execute_query backend query timeout elapsed =
      { result := { success := false, execution_time := elapsed,
                    error := some ("Safety violation: ".data ++ reason) },
        connection_opened := false } := by
  simp [SafeQueryExecutor.execute_query, h]

theorem C1_reject_safety_violation_no_connection_witness :
    ({} : SafeQueryExecutor).validator.validate_query ("".data) = .error ("Empty query".data) ∧
    ({} : SafeQueryExecutor).execute_query (fun _ => .rows []) ("".data) none 0 =
      { result := { success := false, execution_time := 0,
                    error := some ("Safety violation: Empty query".data) },
        connection_opened := false } :=
  ⟨by decide,
   C1_reject_safety_violation_no_connection {} (fun _ => .rows []) ("".data) none 0
     ("Empty query".data) (by decide)⟩

/-- C2: `execute_query` is total (the embedding returns an outcome on every
path: rejection, timeout, backend error, unexpected failure, success), and
on every path the returned outcome has its elapsed time recorded and
nonnegative, an error message exactly on failure, and row data exactly on
success. -/
theorem C2_every_path_populated_outcome
    (ex : SafeQueryExecutor) (backend : Str → BackendResponse) (query : Str)
    (timeout : Option Int) (elapsed : ℚ) (h : 0 ≤ elapsed) :
    (ex.execute_query backend query timeout elapsed).result.execution_time = elapsed ∧
    0 ≤ (ex.execute_query backend query timeout elapsed).result.execution_time ∧
    ((ex.execute_query backend query timeout elapsed).result.error = none ↔
      (ex.execute_query backend query timeout elapsed).result.success = true) ∧
    ((∃ d, (ex.execute_query backend query timeout elapsed).result.data = some d) ↔
      (ex.execute_query backend query timeout elapsed).result.success = true) := by
  rcases hv : ex.validator.validate_query query with e | w
  · simp [SafeQueryExecutor.execute_query, hv, h]
  · rcases hb : backend query with rs | m | m | m <;>
      simp [SafeQueryExecutor.execute_query, hv, hb, h]

theorem C2_every_path_populated_outcome_witness :
    (0 : ℚ) ≤ 1 ∧
    (({} : SafeQueryExecutor).execute_query (fun _ => .failure ("boom".data))
      ("select x".data) none 1).result.execution_time = 1 :=
  ⟨by norm_num,
   (C2_every_path_populated_outcome {} (fun _ => .failure ("boom".data))
     ("select x".data) none 1 (by norm_num)).1⟩

/-- C6 (supporting theorem for the code bug): the computed effective
timeout is never transmitted to the backend — whenever the backend response
is not a timeout report, the whole observable trace of `execute_query` is
the same for any two timeout arguments, so the submission is not performed
under the call's timeout. -/
theorem C6_timeout_not_applied_to_backend
    (ex : SafeQueryExecutor) (backend : Str → BackendResponse) (query : Str)
    (t1 t2 : Option Int) (elapsed : ℚ)
    (h : ∀ m, backend query ≠ .timeout m) :
    ex.execute_query backend query t1 elapsed = ex.execute_query backend query t2 elapsed := by
  rcases hv : ex.validator.validate_query query with e | w
  · simp [SafeQueryExecutor.execute_query, hv]
  · rcases hb : backend query with rs | m | m | m
    · simp [SafeQueryExecutor.execute_query, hv, hb]
    · exact absurd hb (h m)
    · simp [SafeQueryExecutor.execute_query, hv, hb]
    · simp [SafeQueryExecutor.execute_query, hv, hb]

theorem C6_timeout_not_applied_to_backend_witness :
    (∀ m, (fun (_ : Str) => BackendResponse.rows []) ("select x".data) ≠ .timeout m) ∧
    ({} : SafeQueryExecutor).execute_query (fun _ => .rows []) ("select x".data) (some 1) 0 =
      ({} : SafeQueryExecutor).execute_query (fun _ => .rows []) ("select x".data) (some 9999) 0 :=
  ⟨fun m => by simp,
   C6_timeout_not_applied_to_backend {} (fun _ => .rows []) ("select x".data)
     (some 1) (some 9999) 0 (fun m => by simp)⟩

/-- C7: a `validate_query` call is a pure function of the query text and
the policy: in the state-passing embedding the policy after the call is the
policy before it (field by field), and a second call on the returned state
yields the same outcome. -/
theorem C7_validate_pure_and_idempotent (v : QueryValidator) (query : Str) :
    (validateCall v query).2 = v ∧
    (validateCall (validateCall v query).2 query).1 = (validateCall v query).1 ∧
    (validateCall v query).2.max_joins = v.max_joins ∧
    (validateCall v query).2.max_length = v.max_length ∧
    (validateCall v query).2.max_subqueries = v.max_subqueries :=
  ⟨rfl, rfl, rfl, rfl, rfl⟩

/-- C10: a timeout override of `0` is falsy in `timeout or
self.default_timeout`, so calling `execute_query` with override `0` behaves
identically to calling it with no override at all. -/
theorem C10_zero_timeout_same_as_none
    (ex : SafeQueryExecutor) (backend : Str → BackendResponse) (query : Str)
    (elapsed : ℚ) :
    ex.execute_query backend query (some 0) elapsed =
      ex.execute_query backend query none elapsed := rfl

set_option maxRecDepth 4000 in
/-- C4: once the earlier complexity checks pass (length within bound, JOIN
count within bound), the subquery gate rejects exactly when the
`count("select")` heuristic of the source, minus one for the leading
SELECT, exceeds `max_subqueries`; and every text accepted by full
validation satisfies this bound. -/
theorem C4_subquery_count_gate :
    (∀ (v : QueryValidator) (query : Str),
      (query.length : Int) ≤ v.max_length →
      (countWordOcc ("join".data) (lowerStr query) : Int) ≤ v.max_joins →
      (QueryValidator.check_complexity_limits v query
          = .error (QueryValidator.tooManySubqueriesMsg v query) ↔
        v.max_subqueries < (pyCount ("select".data) (lowerStr query) : Int) - 1)) ∧
    (∀ (v : QueryValidator) (query : Str) (w : List Str),
      v.validate_query query = .ok w →
      (pyCount ("select".data) (lowerStr query) : Int) - 1 ≤ v.max_subqueries) := by
  constructor
  · intro v query h1 h2
    rw [QueryValidator.check_complexity_limits]
    rw [if_neg (not_lt.mpr h1), if_neg (not_lt.mpr h2)]
    by_cases h3 : v.max_subqueries < (pyCount ("select".data) (lowerStr query) : Int) - 1
    · rw [if_pos h3]
      simp [h3]
    · rw [if_neg h3]
      simp [h3]
  · intro v query w hok
    rcases hs : QueryValidator.validate_syntax query with e | u
    · simp [QueryValidator.validate_query, hs] at hok
    · rcases hf : QueryValidator.check_forbidden_keywords query with e | u'
      · simp [QueryValidator.validate_query, hs, hf] at hok
      · rcases hc : QueryValidator.check_complexity_limits v query with e | u''
        · simp [QueryValidator.validate_query, hs, hf, hc] at hok
        · rw [QueryValidator.check_complexity_limits] at hc
          split_ifs at hc with c1 c2 c3
          omega

theorem C4_subquery_count_gate_witness :
    QueryValidator.check_complexity_limits {} ("select select select select select".data)
      = .error (QueryValidator.tooManySubqueriesMsg {} ("select select select select select".data)) ∧
    (pyCount ("select".data) (lowerStr ("select x".data)) : Int) - 1
      ≤ ({} : QueryValidator).max_subqueries :=
  ⟨(C4_subquery_count_gate.1 {} ("select select select select select".data)
      (by decide) (by decide)).mpr (by decide),
   C4_subquery_count_gate.2 {} ("select x".data) [] (by decide)⟩

/-- C5: with the row cap at its default 1000, a validated query whose
backend stream holds more than 1000 rows yields `success = true`, exactly
the first 1000 rows, `row_count = 1000` and the appended truncation warning
(whose text contains `"1000"`); a stream of at most 1000 rows is returned
whole with no truncation warning. -/
theorem C5_row_cap_truncation
    (ex : SafeQueryExecutor) (backend : Str → BackendResponse) (query : Str)
    (timeout : Option Int) (elapsed : ℚ) (rs : List Row) (w : List Str)
    (hmax : ex.max_rows = 1000)
    (hv : ex.validator.validate_query query = .ok w)
    (hb : backend query = .rows rs) :
    (1000 < rs.length →
      ex.execute_query backend query timeout elapsed =
        { result := { success := true, data := some (rs.take 1000), row_count := 1000,
                      execution_time := elapsed,
                      warnings := w ++ [SafeQueryExecutor.trunc_warning 1000] },
          connection_opened := true } ∧
      containsSub ("1000".data) (SafeQueryExecutor.trunc_warning 1000) = true) ∧
    (rs.length ≤ 1000 →
      ex.execute_query backend query timeout elapsed =
        { result := { success := true, data := some rs, row_count := rs.length,
                      execution_time := elapsed, warnings := w },
          connection_opened := true }) := by
  have hspec := fetchLoop_spec ex.max_rows rs [] 0 w (Nat.zero_le _)
  rw [hmax] at hspec
  constructor
  · intro hlen
    rw [if_neg (by omega)] at hspec
    constructor
    · simp only [SafeQueryExecutor.execute_query, hv, hb, hmax, hspec]
      simp
    · decide
  · intro hlen
    rw [if_pos (by omega)] at hspec
    simp only [SafeQueryExecutor.execute_query, hv, hb, hmax, hspec]
    simp

theorem C5_row_cap_truncation_witness :
    1000 < (List.replicate 2500 ([] : Row)).length ∧
    ({} : SafeQueryExecutor).execute_query
        (fun _ => .rows (List.replicate 2500 ([] : Row))) ("select x".data) none 0 =
      { result := { success := true,
                    data := some ((List.replicate 2500 ([] : Row)).take 1000),
                    row_count := 1000, execution_time := 0,
                    warnings := [] ++ [SafeQueryExecutor.trunc_warning 1000] },
        connection_opened := true } :=
  ⟨by rw [List.length_replicate]; omega,
   ((C5_row_cap_truncation {} (fun _ => .rows (List.replicate 2500 ([] : Row)))
      ("select x".data) none 0 (List.replicate 2500 ([] : Row)) [] rfl (by decide) rfl).1
      (by rw [List.length_replicate]; omega)).1⟩

/-- C3 (counterexample): `"drop table x"` contains the forbidden keyword
`drop` as a whole word, and `execute_query` does return `success = false`
for it, but the error is the syntax-gate message `"Safety violation: Only
SELECT queries are allowed"`, which does not name the matched keyword —
refuting the claim that every text containing a forbidden whole-word
keyword is answered with that keyword named in the error. -/
theorem C3_keyword_named_counterexample :
    ("drop".data) ∈ QueryValidator.FORBIDDEN_KEYWORDS ∧
    hasWordOcc ("drop".data) (lowerStr ("drop table x".data)) = true ∧
    (({} : SafeQueryExecutor).execute_query (fun _ => .rows [])
      ("drop table x".data) none 0).result.success = false ∧
    (({} : SafeQueryExecutor).execute_query (fun _ => .rows [])
      ("drop table x".data) none 0).result.error
      = some ("Safety violation: Only SELECT queries are allowed".data) ∧
    containsSub ("drop".data) ("Safety violation: Only SELECT queries are allowed".data)
      = false := by
  decide

/-- C3 (amended): for every query text that passes the syntax gate and
contains some forbidden keyword as a whole word (in any casing, since the
scan is over the lower-cased text), `execute_query` returns `success =
false` with the matched keyword named in the error, and no backend
connection is opened; and the match is word-bounded, so the text
`"select deleted_flag from t"` is not rejected by the keyword gate. -/
theorem C3_forbidden_keyword_gate :
    (∀ (ex : SafeQueryExecutor) (backend : Str → BackendResponse) (query : Str)
        (timeout : Option Int) (elapsed : ℚ),
      QueryValidator.validate_syntax query = .ok () →
      (∃ k ∈ QueryValidator.FORBIDDEN_KEYWORDS, hasWordOcc k (lowerStr query) = true) →
      ∃ k, QueryValidator.scanList (fun k => hasWordOcc k (lowerStr query))
          QueryValidator.FORBIDDEN_KEYWORDS = some k ∧
        k ∈ QueryValidator.FORBIDDEN_KEYWORDS ∧ hasWordOcc k (lowerStr query) = true ∧
        ex.execute_query backend query timeout elapsed =
          { result := { success := false, execution_time := elapsed,
                        error := some ("Safety violation: ".data
                          ++ QueryValidator.forbiddenMsg k) },
            connection_opened := false } ∧
        containsSub k ("Safety violation: ".data ++ QueryValidator.forbiddenMsg k) = true) ∧
    QueryValidator.check_forbidden_keywords ("select deleted_flag from t".data) = .ok () := by
  constructor
  · intro ex backend query timeout elapsed hs hex
    rcases scanList_of_mem hex with ⟨k, hscan, hmem, hpk⟩
    have hforb : QueryValidator.check_forbidden_keywords query
        = .error (QueryValidator.forbiddenMsg k) := by
      simp [QueryValidator.check_forbidden_keywords, hscan]
    have hv : ex.validator.validate_query query = .error (QueryValidator.forbiddenMsg k) := by
      simp [QueryValidator.validate_query, hs, hforb]
    refine ⟨k, hscan, hmem, hpk, ?_, ?_⟩
    · simp [SafeQueryExecutor.execute_query, hv]
    · simpa [QueryValidator.forbiddenMsg, List.append_assoc] using
        containsSub_middle
          ("Safety violation: ".data ++ ("Forbidden keyword ".data ++ [quoteCh])) k
          ([quoteCh] ++ " detected".data)
  · decide

theorem C3_forbidden_keyword_gate_witness :
    QueryValidator.validate_syntax ("select delete from t".data) = .ok () ∧
    hasWordOcc ("delete".data) (lowerStr ("select delete from t".data)) = true ∧
    ({} : SafeQueryExecutor).execute_query (fun _ => .rows [])
        ("select delete from t".data) none 0 =
      { result := { success := false, execution_time := 0,
                    error := some ("Safety violation: ".data
                      ++ QueryValidator.forbiddenMsg ("delete".data)) },
        connection_opened := false } ∧
    containsSub ("delete".data)
      ("Safety violation: ".data ++ QueryValidator.forbiddenMsg ("delete".data)) = true := by
  have h := C3_forbidden_keyword_gate.1 {} (fun _ => .rows [])
    ("select delete from t".data) none 0 (by decide)
    ⟨"delete".data, by decide, by decide⟩
  rcases h with ⟨k, hscan, hmem, hocc, hexec, hname⟩
  have hconc : QueryValidator.scanList
      (fun k => hasWordOcc k (lowerStr ("select delete from t".data)))
      QueryValidator.FORBIDDEN_KEYWORDS = some ("delete".data) := by decide
  have hk : k = "delete".data := Option.some.inj (hscan.symm.trans hconc)
  subst hk
  exact ⟨by decide, hocc, hexec, hname⟩

/-- C9 (counterexample): the text `"union"` contains the restricted
substring `union`, and validation does reject it, but the reason is the
syntax-gate message `"Only SELECT queries are allowed"`, which does not
name `union` — refuting the claim that every text containing the substring
is rejected with a reason naming `union`. -/
theorem C9_union_named_counterexample :
    containsSub ("union".data) (lowerStr ("union".data)) = true ∧
    QueryValidator.validate_query {} ("union".data)
      = .error ("Only SELECT queries are allowed".data) ∧
    containsSub ("union".data) ("Only SELECT queries are allowed".data) = false := by
  decide

/-- C9 (amended): every query text whose lower-cased form contains the
substring `union` anywhere (including inside a longer identifier) is
rejected by validation; and when the text passes the syntax gate and no
forbidden keyword matches as a whole word, the rejection reason is the
restricted-substring message for `union`, which names `union`. -/
theorem C9_union_substring_rejected
    (v : QueryValidator) (query : Str)
    (hu : containsSub ("union".data) (lowerStr query) = true) :
    (∃ r, v.validate_query query = .error r) ∧
    ( QueryValidator.validate_syntax query = .ok () →
      QueryValidator.scanList (fun k => hasWordOcc k (lowerStr query))
        QueryValidator.FORBIDDEN_KEYWORDS = none →
      v.validate_query query = .error (QueryValidator.restrictedMsg ("union".data)) ∧
      containsSub ("union".data) (QueryValidator.restrictedMsg ("union".data)) = true) := by
  have hcore : ∀ (hf : QueryValidator.scanList (fun k => hasWordOcc k (lowerStr query))
      QueryValidator.FORBIDDEN_KEYWORDS = none),
      QueryValidator.check_forbidden_keywords query
        = .error (QueryValidator.restrictedMsg ("union".data)) := by
    intro hf
    simp only [QueryValidator.check_forbidden_keywords]
    rw [hf]
    simp [QueryValidator.scanList, QueryValidator.RESTRICTED_KEYWORDS, hu]
  constructor
  · rcases hs : QueryValidator.validate_syntax query with e | u
    · exact ⟨e, by simp [QueryValidator.validate_query, hs]⟩
    · cases u
      rcases hf : QueryValidator.scanList (fun k => hasWordOcc k (lowerStr query))
          QueryValidator.FORBIDDEN_KEYWORDS with _ | k
      · exact ⟨QueryValidator.restrictedMsg ("union".data),
          by simp [QueryValidator.validate_query, hs, hcore hf]⟩
      · exact ⟨QueryValidator.forbiddenMsg k,
          by simp [QueryValidator.validate_query, hs,
            QueryValidator.check_forbidden_keywords, hf]⟩
  · intro hs hf
    exact ⟨by simp [QueryValidator.validate_query, hs, hcore hf], by decide⟩

theorem C9_union_substring_rejected_witness :
    containsSub ("union".data) (lowerStr ("select reunion_count from t".data)) = true ∧
    QueryValidator.validate_query {} ("select reunion_count from t".data)
      = .error (QueryValidator.restrictedMsg ("union".data)) ∧
    containsSub ("union".data) (QueryValidator.restrictedMsg ("union".data)) = true := by
  have h := (C9_union_substring_rejected {} ("select reunion_count from t".data)
    (by decide)).2 (by decide) (by decide)
  exact ⟨by decide, h.1, h.2⟩

/-- C8: for every outcome (including malformed ones, e.g. with a negative
execution time — nothing is re-validated), the formatted response map
always carries `success`, the execution time rounded to three decimals and
`row_count`; on success it additionally carries `data` and — exactly when
the warning list is nonempty — `warnings`, and no `error`; on failure it
carries `error` and neither `data` nor `warnings`.  The formatter is a
total function, so it never raises. -/
theorem C8_format_result_shape (r : QueryResult) :
    List.lookup ("success".data) (SafeQueryExecutor.format_result r)
      = some (Val.vb r.success) ∧
    List.lookup ("execution_time".data) (SafeQueryExecutor.format_result r)
      = some (Val.vq (pyRound3 r.execution_time)) ∧
    List.lookup ("row_count".data) (SafeQueryExecutor.format_result r)
      = some (Val.vn r.row_count) ∧
    (r.success = true →
      List.lookup ("data".data) (SafeQueryExecutor.format_result r)
        = some (Val.vdata r.data) ∧
      (r.warnings ≠ [] →
        List.lookup ("warnings".data) (SafeQueryExecutor.format_result r)
          = some (Val.vwarn r.warnings)) ∧
      (r.warnings = [] →
        List.lookup ("warnings".data) (SafeQueryExecutor.format_result r) = none) ∧
      List.lookup ("error".data) (SafeQueryExecutor.format_result r) = none) ∧
    (r.success = false →
      List.lookup ("error".data) (SafeQueryExecutor.format_result r)
        = some (Val.verr r.error) ∧
      List.lookup ("data".data) (SafeQueryExecutor.format_result r) = none ∧
      List.lookup ("warnings".data) (SafeQueryExecutor.format_result r) = none) := by
  rcases r with ⟨s, d, rc, t, err, ws⟩
  cases s
  · refine ⟨rfl, rfl, rfl, ?_, ?_⟩
    · intro h; simp at h
    · intro _; exact ⟨rfl, rfl, rfl⟩
  · cases ws
    · refine ⟨rfl, rfl, rfl, ?_, ?_⟩
      · intro _
        refine ⟨rfl, ?_, ?_, rfl⟩
        · intro h; simp at h
        · intro _; rfl
      · intro h; simp at h
    · refine ⟨rfl, rfl, rfl, ?_, ?_⟩
      · intro _
        refine ⟨rfl, ?_, ?_, rfl⟩
        · intro _; rfl
        · intro h; simp at h
      · intro h; simp at h

theorem C8_format_result_shape_witness :
    (QueryResult.mk true (some []) 3 (-(1/2)) none ["w".data]).success = true ∧
    (QueryResult.mk true (some []) 3 (-(1/2)) none ["w".data]).warnings ≠ [] ∧
    List.lookup ("warnings".data)
      (SafeQueryExecutor.format_result
        (QueryResult.mk true (some []) 3 (-(1/2)) none ["w".data]))
      = some (Val.vwarn ["w".data]) ∧
    List.lookup ("error".data)
      (SafeQueryExecutor.format_result
        (QueryResult.mk true (some []) 3 (-(1/2)) none ["w".data])) = none := by
  have h := (C8_format_result_shape
    (QueryResult.mk true (some []) 3 (-(1/2)) none ["w".data])).2.2.2.1 rfl
  exact ⟨rfl, by simp, h.2.1 (by simp), h.2.2.2⟩

end TextToSQL
